import Mathlib

/-!
Shallow embedding of `front-end/src/ui/event.rs` of ytui-music: the
keyboard-event core of a terminal music browser.  The state record, the
pure index/page arithmetic and every event handler are translated from
the Rust source.  Types declared in the missing `ui` module are
reconstructed from the spec and from the exhaustive `match` arms in
`event.rs`, and carry a `Modelled from the spec:` doc comment.

Mutex/condvar effects are made explicit: each handler is a pure function
from the shared state to a new state plus a list of observable effects
(`notify_all` calls and opaque external calls).  A Rust `todo!()` panic
is an `Except.error`.
-/

namespace YtuiMusic

/-- Navigation direction, from `enum HeadTo` in event.rs. -/
inductive HeadTo
  | Initial
  | Next
  | Prev
deriving Repr, DecidableEq

/-- Circular index arithmetic, from `advance_index` in event.rs:
`Next` is `(current + 1) % limit`, `Prev` is
`current.checked_sub(1).unwrap_or(limit - 1) % limit`, `Initial` is the
identity. -/
def advance_index (current limit : Nat) (direction : HeadTo) : Nat :=
  match direction with
  | .Next => (current + 1) % limit
  | .Prev =>
    (match current with
     | 0 => limit - 1
     | n + 1 => n) % limit
  | .Initial => current

/-- `VecDeque::rotate_left(1)`: the front element moves to the back. -/
def rotateLeftOne {α : Type} : List α → List α
  | [] => []
  | x :: xs => xs ++ [x]

/-- `VecDeque::rotate_right(1)`: the back element moves to the front. -/
def rotateRightOne {α : Type} (l : List α) : List α :=
  match l.reverse with
  | [] => []
  | x :: r => x :: r.reverse

/-- List rotation with a changed-flag, from `advance_list` in event.rs.
Returns the rotated list and `true` when a rotation happened, the
untouched list and `false` on an empty list or `Initial`. -/
def advance_list {α : Type} (list : List α) (direction : HeadTo) : List α × Bool :=
  if list.isEmpty then (list, false)
  else
    match direction with
    | .Next => (rotateLeftOne list, true)
    | .Prev => (rotateRightOne list, true)
    | .Initial => (list, false)

/-- Page arithmetic, from `get_page` in event.rs: no stored page or
`Initial` gives `0`; `Next` gives `prev + 1`; `Prev` gives
`prev.checked_sub(1).unwrap_or_default()`, i.e. `prev - 1` saturating at
`0` (which is exactly Nat subtraction). -/
def get_page (current : Option Nat) (direction : HeadTo) : Nat :=
  match current with
  | none => 0
  | some prev =>
    match direction with
    | .Initial => 0
    | .Next => prev + 1
    | .Prev => prev - 1

/-- C4: for `limit > 0` and `current < limit`, advancing `Next` then
`Prev` returns to `current`; `Initial` is the identity; and `Prev` from
`0` wraps to `limit - 1`. -/
theorem C4_advance_index_round_trip (limit current : Nat)
    (hl : 0 < limit) (hc : current < limit) :
    advance_index (advance_index current limit .Next) limit .Prev = current ∧
    advance_index current limit .Initial = current ∧
    advance_index 0 limit .Prev = limit - 1 := by
  refine ⟨?_, rfl, ?_⟩
  · rcases Nat.lt_or_ge (current + 1) limit with h | h
    · have h1 : advance_index current limit .Next = current + 1 := by
        simp [advance_index, Nat.mod_eq_of_lt h]
      rw [h1]
      simp [advance_index, Nat.mod_eq_of_lt hc]
    · have hlim : limit = current + 1 := Nat.le_antisymm h hc
      have h1 : advance_index current limit .Next = 0 := by
        simp [advance_index, hlim]
      rw [h1]
      simp [advance_index, hlim]
  · have hlt : limit - 1 < limit := Nat.sub_lt hl Nat.one_pos
    simp [advance_index, Nat.mod_eq_of_lt hlt]

theorem C4_witness :
    advance_index (advance_index 3 5 .Next) 5 .Prev = 3 ∧
    advance_index 3 5 .Initial = 3 ∧
    advance_index 0 5 .Prev = 5 - 1 :=
  C4_advance_index_round_trip 5 3 (by decide) (by decide)

/-- C5: on a non-empty list, `advance_list` with `Next` then `Prev`
restores the list and both calls return `true`; on the empty list every
direction is a no-op returning `false`; `Initial` is a no-op returning
`false` on every list. -/
theorem C5_advance_list_round_trip (α : Type) :
    (∀ L : List α, L ≠ [] →
      (advance_list L HeadTo.Next).2 = true ∧
      (advance_list (advance_list L HeadTo.Next).1 HeadTo.Prev).2 = true ∧
      (advance_list (advance_list L HeadTo.Next).1 HeadTo.Prev).1 = L) ∧
    (∀ d, advance_list ([] : List α) d = ([], false)) ∧
    (∀ L : List α, advance_list L HeadTo.Initial = (L, false)) := by
  refine ⟨?_, ?_, ?_⟩
  · intro L hL
    match L with
    | [] => exact absurd rfl hL
    | x :: xs =>
      refine ⟨?_, ?_, ?_⟩ <;>
        simp [advance_list, rotateLeftOne, rotateRightOne, List.reverse_append]
  · intro d
    cases d <;> rfl
  · intro L
    cases L <;> simp [advance_list]

theorem C5_witness :
    (advance_list ([1, 2, 3] : List Nat) HeadTo.Next).2 = true ∧
    (advance_list (advance_list ([1, 2, 3] : List Nat) HeadTo.Next).1 HeadTo.Prev).2 = true ∧
    (advance_list (advance_list ([1, 2, 3] : List Nat) HeadTo.Next).1 HeadTo.Prev).1
      = [1, 2, 3] :=
  (C5_advance_list_round_trip Nat).1 [1, 2, 3] (by decide)

/-- C6: `get_page` is `0` on `none` for every direction; on `some p` it
is `0` for `Initial`, `p + 1` for `Next`, `p - 1` (saturating at `0`)
for `Prev`; in particular `get_page (some 3) Next = 4` and
`get_page (some 0) Prev = 0`. -/
theorem C6_get_page_spec :
    (∀ d, get_page none d = 0) ∧
    (∀ p, get_page (some p) HeadTo.Initial = 0) ∧
    (∀ p, get_page (some p) HeadTo.Next = p + 1) ∧
    (∀ p, get_page (some p) HeadTo.Prev = p - 1) ∧
    get_page (some 3) HeadTo.Next = 4 ∧
    get_page (some 0) HeadTo.Prev = 0 := by
  refine ⟨fun d => by cases d <;> rfl, fun p => rfl, fun p => rfl, fun p => rfl, rfl, rfl⟩

/-- Modelled from the spec: the `ui::Window` enum of the missing `ui`
module.  States per §4.3: None (terminal sentinel), Sidebar, Musicbar,
Playlistbar, Artistbar, Searchbar, Helpbar — the exhaustive match in
`handle_enter` lists exactly these. -/
inductive Window
  | None
  | Sidebar
  | Musicbar
  | Playlistbar
  | Artistbar
  | Searchbar
  | Helpbar
deriving Repr, DecidableEq

/-- Modelled from the spec: `ui::Window::next`, the cyclic successor over
the non-terminal states (§4.3 fixes a total order but not which one; no
claim depends on the particular order). -/
def Window.next : Window → Window
  | .Sidebar => .Musicbar
  | .Musicbar => .Playlistbar
  | .Playlistbar => .Artistbar
  | .Artistbar => .Searchbar
  | .Searchbar => .Helpbar
  | .Helpbar => .Sidebar
  | .None => .None

/-- Modelled from the spec: `ui::Window::prev`, inverse cycle of
`Window.next`. -/
def Window.prev : Window → Window
  | .Sidebar => .Helpbar
  | .Musicbar => .Sidebar
  | .Playlistbar => .Musicbar
  | .Artistbar => .Playlistbar
  | .Searchbar => .Artistbar
  | .Helpbar => .Searchbar
  | .None => .None

/-- Modelled from the spec: `ui::MusicbarSource` of the missing `ui`
module; the variants are exactly the arms of the exhaustive match on
`filled_source.0` in `handle_page_nav`. -/
inductive MusicbarSource
  | Trending
  | YoutubeCommunity
  | RecentlyPlayed
  | Favourates
  | Search
  | Playlist (id : String)
  | Artist (id : String)
deriving Repr, DecidableEq

/-- Modelled from the spec: `ui::PlaylistbarSource`; variants are the
arms of the exhaustive match on `filled_source.1` in `handle_page_nav`. -/
inductive PlaylistbarSource
  | Search
  | Artist (id : String)
  | Favourates
  | RecentlyPlayed
deriving Repr, DecidableEq

/-- Modelled from the spec: `ui::ArtistbarSource`; variants are the arms
of the exhaustive match on `filled_source.2` in `handle_page_nav`. -/
inductive ArtistbarSource
  | Followings
  | Search
  | RecentlyPlayed
deriving Repr, DecidableEq

/-- Modelled from the spec: `ui::FillFetch`, the outstanding fetch
request (§3); the variants constructed in event.rs are
`Search(query, [Option<usize>; 3])`, `Trending(page)` and `Playlist`. -/
inductive FillFetch
  | Search (query : String) (pages : Option Nat × Option Nat × Option Nat)
  | Trending (page : Nat)
  | Playlist
deriving Repr, DecidableEq

/-- Modelled from the spec: `ui::SidebarOption` (§4.4 sidebar commit
path); variants are the arms of the match on `side_select` in
`handle_enter`. -/
inductive SidebarOption
  | Trending
  | YoutubeCommunity
  | Favourates
  | RecentlyPlayed
  | Search
  | None
deriving Repr, DecidableEq

/-- Modelled from the spec: `ui::SidebarOption::try_from(usize)` of the
missing `ui` module, mapping a sidebar row index to its option in the
listed order; out-of-range indices fail. -/
def sidebarOptionOfNat : Nat → Option SidebarOption
  | 0 => some .Trending
  | 1 => some .YoutubeCommunity
  | 2 => some .Favourates
  | 3 => some .RecentlyPlayed
  | 4 => some .Search
  | 5 => some .None
  | _ => none

/-- Modelled from the spec: `ui::utils::SIDEBAR_LIST_COUNT` (§3 bounds
the sidebar cursor by it); the sidebar has the six `SidebarOption`
rows. -/
def SIDEBAR_LIST_COUNT : Nat := 6

/-- Modelled from the spec: a musicbar row; only its presence matters to
event.rs (the front item is handed to playback). -/
structure MusicUnit where
  id : String
deriving Repr, DecidableEq

/-- Modelled from the spec: a playlistbar row; event.rs reads its `id`
on activation. -/
structure PlaylistUnit where
  id : String
deriving Repr, DecidableEq

/-- Modelled from the spec: an artistbar row; event.rs reads its `id`
on activation. -/
structure ArtistUnit where
  id : String
deriving Repr, DecidableEq

/-- Modelled from the spec: `ui::State` (§3), the shared mutex-protected
record.  Tuple components follow the Rust numbering shifted by one:
Rust `.0`/`.1`/`.2` are Lean `.1`/`.2.1`/`.2.2`.  `search` is
(live-typed query, committed query). -/
structure State where
  active : Window
  sidebar : Option Nat
  musicbar : List MusicUnit
  playlistbar : List PlaylistUnit
  artistbar : List ArtistUnit
  filled_source : MusicbarSource × PlaylistbarSource × ArtistbarSource
  fetched_page : Option Nat × Option Nat × Option Nat
  search : String × String
  to_fetch : FillFetch
  help : String
deriving Repr, DecidableEq

/-- Observable effects of a handler: `Condvar::notify_all` and the two
opaque playback calls the core delegates (§6). -/
inductive Eff
  | notifyAll
  | playFirstOfMusicbar
  | togglePause
deriving Repr, DecidableEq

/-- Handler result: new state plus effect trace; `Except.error` embeds a
Rust panic (`todo!()` / `unwrap` failure). -/
abbrev Res := Except String (State × List Eff)

def MIDDLE_MUSIC_INDEX : Nat := 0

def MIDDLE_PLAYLIST_INDEX : Nat := 1

def MIDDLE_ARTIST_INDEX : Nat := 2

/-- Read slot `i` of the `[Option<usize>; 3]` triple (indices 0..2). -/
def pageAt (t : Option Nat × Option Nat × Option Nat) (i : Nat) : Option Nat :=
  match i with
  | 0 => t.1
  | 1 => t.2.1
  | _ => t.2.2

/-- Write slot `i` of the `[Option<usize>; 3]` triple (indices 0..2). -/
def setPageAt (t : Option Nat × Option Nat × Option Nat) (i : Nat) (v : Option Nat) :
    Option Nat × Option Nat × Option Nat :=
  match i with
  | 0 => (v, t.2.1, t.2.2)
  | 1 => (t.1, v, t.2.2)
  | _ => (t.1, t.2.1, v)

/-- Embeds Rust `str::trim`: strip leading and trailing whitespace. -/
def rust_trim (s : String) : String :=
  ⟨((s.data.dropWhile Char.isWhitespace).reverse.dropWhile Char.isWhitespace).reverse⟩

def SEARCH_SH_KEY : Char := '/'

def HELP_SH_KEY : Char := '?'

def NEXT_SH_KEY : Char := 'n'

def PREV_SH_KEY : Char := 'p'

def QUIT_SH_KEY : Char := 'q'

def SEEK_F_KEY : Char := '>'

def SEEK_B_KEY : Char := '<'

def TOGGLE_PAUSE_KEY : Char := ' '

/-- `quit` closure: set the active window to the `None` sentinel and
notify. -/
def quit (s : State) : State × List Eff :=
  ({ s with active := .None }, [.notifyAll])

/-- `moveto_next_window` closure. -/
def moveto_next_window (s : State) : State × List Eff :=
  ({ s with active := s.active.next }, [.notifyAll])

/-- `moveto_prev_window` closure. -/
def moveto_prev_window (s : State) : State × List Eff :=
  ({ s with active := s.active.prev }, [.notifyAll])

/-- `handle_esc` closure: only in the Searchbar does Esc clear the live
query and move to the next window; elsewhere nothing happens. -/
def handle_esc (s : State) : State × List Eff :=
  if s.active = Window.Searchbar then
    moveto_next_window { s with search := ("", s.search.2) }
  else (s, [])

/-- `handle_backspace` closure: in the Searchbar pop one char from the
live query and notify; elsewhere behave as `moveto_prev_window`. -/
def handle_backspace (s : State) : State × List Eff :=
  match s.active with
  | .Searchbar => ({ s with search := (s.search.1.dropRight 1, s.search.2) }, [.notifyAll])
  | _ => moveto_prev_window s

/-- `handle_search_input` closure: append the typed char to the live
query and notify. -/
def handle_search_input (s : State) (ch : Char) : State × List Eff :=
  ({ s with search := (s.search.1.push ch, s.search.2) }, [.notifyAll])

/-- `activate_search` closure. -/
def activate_search (s : State) : State × List Eff :=
  ({ s with active := .Searchbar }, [.notifyAll])

/-- `advance_sidebar` closure: circularly move the sidebar cursor. -/
def advance_sidebar (s : State) (direction : HeadTo) : State × List Eff :=
  let current := s.sidebar.getD 0
  ({ s with sidebar := some (advance_index current SIDEBAR_LIST_COUNT direction) },
   [.notifyAll])

/-- `advance_music_list` closure: rotate the musicbar, notifying only
when the rotation happened. -/
def advance_music_list (s : State) (direction : HeadTo) : State × List Eff :=
  let r := advance_list s.musicbar direction
  ({ s with musicbar := r.1 }, if r.2 then [.notifyAll] else [])

/-- `advance_playlist_list` closure. -/
def advance_playlist_list (s : State) (direction : HeadTo) : State × List Eff :=
  let r := advance_list s.playlistbar direction
  ({ s with playlistbar := r.1 }, if r.2 then [.notifyAll] else [])

/-- `advance_artist_list` closure. -/
def advance_artist_list (s : State) (direction : HeadTo) : State × List Eff :=
  let r := advance_list s.artistbar direction
  ({ s with artistbar := r.1 }, if r.2 then [.notifyAll] else [])

/-- `handle_up` closure. -/
def handle_up (s : State) : State × List Eff :=
  match s.active with
  | .Sidebar => advance_sidebar s .Prev
  | .Musicbar => advance_music_list s .Prev
  | .Playlistbar => advance_playlist_list s .Prev
  | .Artistbar => advance_artist_list s .Prev
  | _ => moveto_prev_window s

/-- `handle_down` closure. -/
def handle_down (s : State) : State × List Eff :=
  match s.active with
  | .Sidebar => advance_sidebar s .Next
  | .Musicbar => advance_music_list s .Next
  | .Playlistbar => advance_playlist_list s .Next
  | .Artistbar => advance_artist_list s .Next
  | _ => moveto_next_window s

/-- The `"@internal-core"` arm of the `fill_search!` macro: for each
requested column index compute `get_page` of that column's
`fetched_page` entry, build the 3-slot optional page array, set
`to_fetch` to a Search request for the committed query, set the status
text and notify once. -/
def fill_search_core (s : State) (direction : HeadTo) (idxs : List Nat) :
    State × List Eff :=
  let to_search := idxs.foldl
    (fun acc i => setPageAt acc i (some (get_page (pageAt s.fetched_page i) direction)))
    (none, none, none)
  ({ s with to_fetch := FillFetch.Search s.search.2 to_search, help := "Searching.." },
   [.notifyAll])

/-- The `"music"` arm of `fill_search!`: internal core on the music
column, then `filled_source.0 = MusicbarSource::Search` (event.rs
line 75). -/
def fill_search_music (s : State) (direction : HeadTo) : State × List Eff :=
  let r := fill_search_core s direction [MIDDLE_MUSIC_INDEX]
  ({ r.1 with
      filled_source :=
        (MusicbarSource.Search, r.1.filled_source.2.1, r.1.filled_source.2.2) },
   r.2)

/-- The `"playlist"` arm of `fill_search!`: internal core on the
playlist column, then — as written at event.rs line 79 —
`filled_source.0 = MusicbarSource::Search` (the musicbar tag, not the
playlistbar tag). -/
def fill_search_playlist (s : State) (direction : HeadTo) : State × List Eff :=
  let r := fill_search_core s direction [MIDDLE_PLAYLIST_INDEX]
  ({ r.1 with
      filled_source :=
        (MusicbarSource.Search, r.1.filled_source.2.1, r.1.filled_source.2.2) },
   r.2)

/-- The `"artist"` arm of `fill_search!`: internal core on the artist
column, then — as written at event.rs line 83 —
`filled_source.0 = MusicbarSource::Search` (the musicbar tag, not the
artistbar tag). -/
def fill_search_artist (s : State) (direction : HeadTo) : State × List Eff :=
  let r := fill_search_core s direction [MIDDLE_ARTIST_INDEX]
  ({ r.1 with
      filled_source :=
        (MusicbarSource.Search, r.1.filled_source.2.1, r.1.filled_source.2.2) },
   r.2)

/-- The `"all"` arm of `fill_search!`: internal core on all three
columns, then all three `filled_source` entries are tagged Search. -/
def fill_search_all (s : State) (direction : HeadTo) : State × List Eff :=
  let r := fill_search_core s direction
    [MIDDLE_MUSIC_INDEX, MIDDLE_PLAYLIST_INDEX, MIDDLE_ARTIST_INDEX]
  ({ r.1 with
      filled_source :=
        (MusicbarSource.Search, PlaylistbarSource.Search, ArtistbarSource.Search) },
   r.2)

/-- `fill_trending_music` closure: request the trending page computed
from the music column's `fetched_page` and the direction. -/
def fill_trending_music (s : State) (direction : HeadTo) : State × List Eff :=
  let page := get_page (pageAt s.fetched_page MIDDLE_MUSIC_INDEX) direction
  ({ s with to_fetch := FillFetch.Trending page, help := "Fetching.." }, [.notifyAll])

/-- `fill_community_music` closure: commented-out body, a no-op. -/
def fill_community_music (s : State) (_direction : HeadTo) : State × List Eff :=
  (s, [])

/-- `fill_recents_music` closure: commented-out body, a no-op. -/
def fill_recents_music (s : State) (_direction : HeadTo) : State × List Eff :=
  (s, [])

/-- `fill_favourates_music` closure: commented-out body, a no-op. -/
def fill_favourates_music (s : State) (_direction : HeadTo) : State × List Eff :=
  (s, [])

/-- `fill_following_artist` closure: commented-out body, a no-op. -/
def fill_following_artist (s : State) (_direction : HeadTo) : State × List Eff :=
  (s, [])

/-- `fill_music_from_playlist` closure: only when the musicbar source is
still a playlist, store the new page, request `FillFetch::Playlist` and
notify. -/
def fill_music_from_playlist (s : State) (direction : HeadTo) : State × List Eff :=
  match s.filled_source.1 with
  | .Playlist _ =>
    let page := get_page (pageAt s.fetched_page MIDDLE_MUSIC_INDEX) direction
    ({ s with
        fetched_page := setPageAt s.fetched_page MIDDLE_MUSIC_INDEX (some page),
        to_fetch := FillFetch.Playlist },
     [.notifyAll])
  | _ => (s, [])

/-- `fill_playlist_from_artist` closure: only when the playlistbar
source is an artist, store the new page in the playlist column and
notify; note that no `to_fetch` value is written. -/
def fill_playlist_from_artist (s : State) (direction : HeadTo) : State × List Eff :=
  match s.filled_source.2.1 with
  | .Artist _ =>
    let page := get_page (pageAt s.fetched_page MIDDLE_PLAYLIST_INDEX) direction
    ({ s with
        fetched_page := setPageAt s.fetched_page MIDDLE_PLAYLIST_INDEX (some page) },
     [.notifyAll])
  | _ => (s, [])

/-- `handle_play_advance` closure: rotate the musicbar then hand the new
front item to the opaque playback call. -/
def handle_play_advance (s : State) (direction : HeadTo) : State × List Eff :=
  let r := advance_music_list s direction
  (r.1, r.2 ++ [.playFirstOfMusicbar])

/-- `handle_page_nav` closure: dispatch on the focused window and its
current source tag; the Playlistbar/Artist arm is a `todo!()` panic. -/
def handle_page_nav (s : State) (direction : HeadTo) : Res :=
  match s.active with
  | .Musicbar =>
    match s.filled_source.1 with
    | .Trending => .ok (fill_trending_music s direction)
    | .YoutubeCommunity => .ok (fill_community_music s direction)
    | .RecentlyPlayed => .ok (fill_recents_music s direction)
    | .Favourates => .ok (fill_favourates_music s direction)
    | .Search => .ok (fill_search_music s direction)
    | .Playlist _ => .ok (fill_music_from_playlist s direction)
    | .Artist _ => .ok (s, [])
  | .Playlistbar =>
    match s.filled_source.2.1 with
    | .Search => .ok (fill_search_playlist s direction)
    | .Artist _ => .error "todo: page nav on playlistbar sourced from artist"
    | .Favourates => .ok (s, [])
    | .RecentlyPlayed => .ok (s, [])
  | .Artistbar =>
    match s.filled_source.2.2 with
    | .Followings => .ok (fill_following_artist s direction)
    | .Search => .ok (fill_search_artist s direction)
    | .RecentlyPlayed => .ok (s, [])
  | _ => .ok (s, [])

/-- `show_help` closure: `todo!()`, a panic. -/
def show_help : Res :=
  .error "todo: show help"

/-- `handle_enter` closure: dispatch on the focused window.  The Sidebar
arm unwraps the cursor and its `SidebarOption`; the Searchbar arm
commits the trimmed live query, resets pagination, clears the three
panels and runs the all-columns search fill; the Playlistbar/Artistbar
arms activate the front row when one exists. -/
def handle_enter (s : State) : Res :=
  match s.active with
  | .Sidebar =>
    match s.sidebar with
    | none => .error "unwrap: no sidebar row selected"
    | some i =>
      match sidebarOptionOfNat i with
      | none => .error "unwrap: sidebar index out of range"
      | some side_select =>
        match side_select with
        | .Trending =>
          let s2 : State := { s with
            fetched_page := setPageAt s.fetched_page MIDDLE_MUSIC_INDEX none,
            filled_source :=
              (MusicbarSource.Trending, s.filled_source.2.1, s.filled_source.2.2),
            musicbar := [] }
          .ok (fill_trending_music s2 .Initial)
        | .YoutubeCommunity =>
          let s2 : State := { s with
            filled_source :=
              (MusicbarSource.YoutubeCommunity, s.filled_source.2.1, s.filled_source.2.2),
            musicbar := [] }
          .ok (fill_community_music s2 .Initial)
        | .Favourates =>
          let s2 : State := { s with
            filled_source :=
              (MusicbarSource.Favourates, PlaylistbarSource.Favourates,
               ArtistbarSource.Followings),
            musicbar := [], playlistbar := [], artistbar := [] }
          .ok (fill_favourates_music s2 .Initial)
        | .RecentlyPlayed =>
          let s2 : State := { s with
            filled_source :=
              (MusicbarSource.RecentlyPlayed, PlaylistbarSource.RecentlyPlayed,
               ArtistbarSource.RecentlyPlayed),
            musicbar := [], playlistbar := [], artistbar := [] }
          .ok (fill_recents_music s2 .Initial)
        | .Search => .ok (activate_search s)
        | .None => .ok (s, [])
  | .Musicbar => .ok (s, [.playFirstOfMusicbar])
  | .Searchbar =>
    let s2 : State := { s with
      search := (s.search.1, rust_trim s.search.1),
      fetched_page := (none, none, none),
      musicbar := [], playlistbar := [], artistbar := [] }
    .ok (fill_search_all s2 .Initial)
  | .Playlistbar =>
    match s.playlistbar.head? with
    | some playlist =>
      let s2 : State := { s with
        filled_source :=
          (MusicbarSource.Playlist playlist.id, s.filled_source.2.1,
           s.filled_source.2.2),
        fetched_page := setPageAt s.fetched_page MIDDLE_MUSIC_INDEX none,
        musicbar := [] }
      .ok (fill_music_from_playlist s2 .Initial)
    | none => .ok (s, [])
  | .Artistbar =>
    match s.artistbar.head? with
    | some artist =>
      let s2 : State := { s with
        filled_source :=
          (MusicbarSource.Artist artist.id, PlaylistbarSource.Artist artist.id,
           s.filled_source.2.2),
        fetched_page :=
          setPageAt (setPageAt s.fetched_page MIDDLE_MUSIC_INDEX none)
            MIDDLE_PLAYLIST_INDEX none,
        musicbar := [], playlistbar := [] }
      .ok (fill_playlist_from_artist s2 .Initial)
    | none => .ok (s, [])
  | .None => .ok (s, [])
  | .Helpbar => .ok (s, [])

/-- Key codes the listener loop distinguishes (crossterm `KeyCode`). -/
inductive KeyCode
  | Down
  | PageDown
  | Up
  | PageUp
  | Right
  | Tab
  | Left
  | BackTab
  | Esc
  | Enter
  | Backspace
  | Delete
  | Char (c : Char)
  | Other
deriving Repr, DecidableEq

/-- A key event: its code and whether the CONTROL modifier is held. -/
structure KeyEvent where
  code : KeyCode
  ctrl : Bool
deriving Repr, DecidableEq

/-- One iteration of the `Event::Key` arm of the listener loop in
`event_sender`: new state, effect trace, and whether the loop breaks
(only the quit shortcut breaks it). -/
def event_step (s : State) (key : KeyEvent) : Except String (State × List Eff × Bool) :=
  let cont : State × List Eff → Except String (State × List Eff × Bool) :=
    fun r => .ok (r.1, r.2, false)
  match key.code with
  | .Down | .PageDown => cont (handle_down s)
  | .Up | .PageUp => cont (handle_up s)
  | .Right | .Tab => cont (moveto_next_window s)
  | .Left | .BackTab => cont (moveto_prev_window s)
  | .Esc => cont (handle_esc s)
  | .Enter => (handle_enter s).map (fun r => (r.1, r.2, false))
  | .Backspace | .Delete => cont (handle_backspace s)
  | .Char ch =>
    if s.active = Window.Searchbar then cont (handle_search_input s ch)
    else if ch = SEARCH_SH_KEY then cont (activate_search s)
    else if ch = HELP_SH_KEY then show_help.map (fun r => (r.1, r.2, false))
    else if ch = QUIT_SH_KEY then
      let r := quit s
      .ok (r.1, r.2, true)
    else if ch = NEXT_SH_KEY then
      if key.ctrl then cont (handle_play_advance s .Next)
      else (handle_page_nav s .Next).map (fun r => (r.1, r.2, false))
    else if ch = PREV_SH_KEY then
      if key.ctrl then cont (handle_play_advance s .Prev)
      else (handle_page_nav s .Prev).map (fun r => (r.1, r.2, false))
    else if ch = SEEK_F_KEY then cont (s, [])
    else if ch = SEEK_B_KEY then cont (s, [])
    else if ch = TOGGLE_PAUSE_KEY then cont (s, [.togglePause])
    else cont (s, [])
  | .Other => cont (s, [])

/-- A baseline concrete state for witnesses: Musicbar focused, Trending
musicbar source, all panels empty. -/
def exState : State :=
  { active := Window.Musicbar
    sidebar := some 0
    musicbar := []
    playlistbar := []
    artistbar := []
    filled_source :=
      (MusicbarSource.Trending, PlaylistbarSource.Favourates, ArtistbarSource.Followings)
    fetched_page := (none, none, none)
    search := ("", "")
    to_fetch := FillFetch.Trending 0
    help := "" }

def C1_state : State :=
  { exState with search := ("", "q1") }

/-- C1: evaluation of the playlist- and artist-scoped search fills at a
concrete state.  Both leave the playlistbar/artistbar source tags
untouched (still `Favourates`/`Followings`, not `Search`) and instead
retag the musicbar entry `filled_source.0` as `Search` — event.rs
lines 79 and 83 assign `filled_source.0` in all three single-column
arms.  Only the music-scoped fill tags the entry the claim names. -/
theorem C1_code_eval :
    (fill_search_playlist C1_state HeadTo.Next).1.filled_source
        = (MusicbarSource.Search, PlaylistbarSource.Favourates,
           ArtistbarSource.Followings) ∧
    (fill_search_artist C1_state HeadTo.Next).1.filled_source
        = (MusicbarSource.Search, PlaylistbarSource.Favourates,
           ArtistbarSource.Followings) ∧
    (fill_search_music C1_state HeadTo.Next).1.filled_source.1
        = MusicbarSource.Search := by
  decide

theorem rust_trim_lofi : rust_trim "  lofi  " = "lofi" := by decide

/-- C2: pressing Enter with the Searchbar focused and live query
`"  lofi  "` commits the trimmed query `"lofi"`, clears the three
panels, resets `fetched_page` to all-`none`, sets `to_fetch` to a
Search request for `"lofi"` with all three column pages `some 0`, and
notifies exactly once (the effect trace is one `notifyAll`). -/
theorem C2_search_commit (s : State)
    (hact : s.active = Window.Searchbar)
    (hq : s.search.1 = "  lofi  ") :
    ∃ s2, event_step s ⟨KeyCode.Enter, false⟩ = .ok (s2, [Eff.notifyAll], false) ∧
      s2.search.2 = "lofi" ∧
      s2.musicbar = [] ∧ s2.playlistbar = [] ∧ s2.artistbar = [] ∧
      s2.fetched_page = (none, none, none) ∧
      s2.to_fetch = FillFetch.Search "lofi" (some 0, some 0, some 0) := by
  obtain ⟨act, sb, mb, pb, ab, fs, fp, ⟨live, committed⟩, tf, hstr⟩ := s
  dsimp only at hact hq
  subst hact
  subst hq
  exact ⟨_, rfl, rust_trim_lofi, rfl, rfl, rfl, rfl,
    congrArg (fun q => FillFetch.Search q (some 0, some 0, some 0)) rust_trim_lofi⟩

def C2_state : State :=
  { exState with
      active := Window.Searchbar
      search := ("  lofi  ", "")
      musicbar := [⟨"m"⟩]
      playlistbar := [⟨"p"⟩]
      artistbar := [⟨"a"⟩]
      fetched_page := (some 1, some 2, some 3) }

theorem C2_witness :
    ∃ s2, event_step C2_state ⟨KeyCode.Enter, false⟩ = .ok (s2, [Eff.notifyAll], false) ∧
      s2.search.2 = "lofi" ∧
      s2.musicbar = [] ∧ s2.playlistbar = [] ∧ s2.artistbar = [] ∧
      s2.fetched_page = (none, none, none) ∧
      s2.to_fetch = FillFetch.Search "lofi" (some 0, some 0, some 0) :=
  C2_search_commit C2_state rfl rfl

def C3_state : State :=
  { active := Window.Artistbar
    sidebar := some 0
    musicbar := [⟨"m1"⟩]
    playlistbar := [⟨"p1"⟩]
    artistbar := [⟨"artistX"⟩]
    filled_source :=
      (MusicbarSource.Trending, PlaylistbarSource.Favourates, ArtistbarSource.Search)
    fetched_page := (some 5, some 6, some 7)
    search := ("", "")
    to_fetch := FillFetch.Trending 7
    help := "" }

/-- C3 counterexample: at a concrete Artistbar state with front artist
`"artistX"` and `to_fetch = Trending 7`, the Enter handler ends with the
playlist column's `fetched_page` equal to `some 0` — not `none` as the
claim asserts — and with `to_fetch` still holding its pre-state value
`Trending 7`, i.e. no playlist-from-artist request is ever written into
`to_fetch`. -/
theorem C3_counterexample :
    (handle_enter C3_state).toOption.map (fun r => (r.1.fetched_page.2.1, r.1.to_fetch))
        = some (some 0, FillFetch.Trending 7) ∧
    (some 0 : Option Nat) ≠ none ∧
    FillFetch.Trending 7 = C3_state.to_fetch := by
  decide

/-- C3 (amended): pressing Enter with the Artistbar focused and
non-empty retags `filled_source.0` and `filled_source.1` to
`Artist(id)` of the front artist, resets the music column's
`fetched_page` to `none`, clears the musicbar and playlistbar rows, and
issues the initial playlist-from-artist fetch by setting the playlist
column's `fetched_page` to `some 0` and notifying waiters; `to_fetch`
is left unchanged. -/
theorem C3_artist_enter (s : State) (art : ArtistUnit) (rest : List ArtistUnit)
    (hact : s.active = Window.Artistbar)
    (hbar : s.artistbar = art :: rest) :
    ∃ s2, handle_enter s = .ok (s2, [Eff.notifyAll]) ∧
      s2.filled_source.1 = MusicbarSource.Artist art.id ∧
      s2.filled_source.2.1 = PlaylistbarSource.Artist art.id ∧
      s2.fetched_page.1 = none ∧
      s2.fetched_page.2.1 = some 0 ∧
      s2.musicbar = [] ∧ s2.playlistbar = [] ∧
      s2.to_fetch = s.to_fetch := by
  obtain ⟨act, sb, mb, pb, ab, fs, fp, se, tf, hstr⟩ := s
  dsimp only at hact hbar
  subst hact
  subst hbar
  exact ⟨_, rfl, rfl, rfl, rfl, rfl, rfl, rfl, rfl⟩

theorem C3_witness :
    ∃ s2, handle_enter C3_state = .ok (s2, [Eff.notifyAll]) ∧
      s2.filled_source.1 = MusicbarSource.Artist (ArtistUnit.mk "artistX").id ∧
      s2.filled_source.2.1 = PlaylistbarSource.Artist (ArtistUnit.mk "artistX").id ∧
      s2.fetched_page.1 = none ∧
      s2.fetched_page.2.1 = some 0 ∧
      s2.musicbar = [] ∧ s2.playlistbar = [] ∧
      s2.to_fetch = C3_state.to_fetch :=
  C3_artist_enter C3_state ⟨"artistX"⟩ [] rfl rfl

/-- C7: with the Musicbar focused, source `Trending` and music page
`some 2`, the plain `n` key issues `Trending 3` (and notifies); the
only other state change is the status text. -/
theorem C7_trending_page_nav (s : State)
    (hact : s.active = Window.Musicbar)
    (hsrc : s.filled_source.1 = MusicbarSource.Trending)
    (hp : s.fetched_page.1 = some 2) :
    event_step s ⟨KeyCode.Char 'n', false⟩ =
      .ok ({ s with to_fetch := FillFetch.Trending 3, help := "Fetching.." },
           [Eff.notifyAll], false) := by
  obtain ⟨act, sb, mb, pb, ab, ⟨fs1, fs2, fs3⟩, ⟨fp1, fp2, fp3⟩, se, tf, hstr⟩ := s
  dsimp only at hact hsrc hp
  subst hact
  subst hsrc
  subst hp
  rfl

def C7_state : State :=
  { exState with fetched_page := (some 2, none, none) }

theorem C7_witness :
    event_step C7_state ⟨KeyCode.Char 'n', false⟩ =
      .ok ({ C7_state with to_fetch := FillFetch.Trending 3, help := "Fetching.." },
           [Eff.notifyAll], false) :=
  C7_trending_page_nav C7_state rfl rfl rfl

/-- C8: page navigation on an unimplemented source — Musicbar with
YoutubeCommunity, RecentlyPlayed or Favourates, Artistbar with
Followings or RecentlyPlayed — returns the state unchanged with an
empty effect trace (no notification), for either navigation
direction. -/
theorem C8_unimplemented_page_nav (s : State) (d : HeadTo)
    (hd : d = HeadTo.Next ∨ d = HeadTo.Prev)
    (h : (s.active = Window.Musicbar ∧
            (s.filled_source.1 = MusicbarSource.YoutubeCommunity ∨
             s.filled_source.1 = MusicbarSource.RecentlyPlayed ∨
             s.filled_source.1 = MusicbarSource.Favourates)) ∨
         (s.active = Window.Artistbar ∧
            (s.filled_source.2.2 = ArtistbarSource.Followings ∨
             s.filled_source.2.2 = ArtistbarSource.RecentlyPlayed))) :
    handle_page_nav s d = .ok (s, []) := by
  rcases h with ⟨ha, h1 | h1 | h1⟩ | ⟨ha, h1 | h1⟩ <;>
    simp [handle_page_nav, ha, h1, fill_community_music, fill_recents_music,
      fill_favourates_music, fill_following_artist]

def C8_state : State :=
  { exState with
      filled_source :=
        (MusicbarSource.YoutubeCommunity, PlaylistbarSource.Favourates,
         ArtistbarSource.Followings) }

theorem C8_witness :
    handle_page_nav C8_state HeadTo.Next = .ok (C8_state, []) :=
  C8_unimplemented_page_nav C8_state HeadTo.Next (Or.inl rfl)
    (Or.inl ⟨rfl, Or.inl rfl⟩)

/-- C9: the `q` shortcut outside the Searchbar sets the active window to
the `None` sentinel (every other field unchanged), notifies once, and
breaks the listener loop. -/
theorem C9_quit (s : State) (ctrl : Bool)
    (hact : s.active ≠ Window.Searchbar) :
    event_step s ⟨KeyCode.Char 'q', ctrl⟩ =
      .ok ({ s with active := Window.None }, [Eff.notifyAll], true) := by
  simp [event_step, hact, quit, SEARCH_SH_KEY, HELP_SH_KEY, QUIT_SH_KEY]

theorem C9_witness :
    event_step exState ⟨KeyCode.Char 'q', false⟩ =
      .ok ({ exState with active := Window.None }, [Eff.notifyAll], true) :=
  C9_quit exState false (by decide)

/-- C10: Esc with any window other than the Searchbar focused is a
complete no-op: the state is returned unchanged, no effect is emitted
and the loop continues. -/
theorem C10_esc_noop (s : State) (ctrl : Bool)
    (hact : s.active ≠ Window.Searchbar) :
    event_step s ⟨KeyCode.Esc, ctrl⟩ = .ok (s, [], false) := by
  simp [event_step, handle_esc, hact]

theorem C10_witness :
    event_step exState ⟨KeyCode.Esc, false⟩ = .ok (exState, [], false) :=
  C10_esc_noop exState false (by decide)

end YtuiMusic
